import Mathlib

/-
  Verification development for the go-lynx/lynx-polaris plugin.

  Shallow embedding of the parts of the repository relevant to the
  frozen claims: configuration validation (validator file), the
  service/config change and watch-error handlers (watch file), the
  shutdown orchestrator (cleanup.go), and the retry executor.

  Go strings are embedded as Lean `String`; Go `len` on a string is
  the UTF-8 byte length, embedded as `goByteLen`.  Go durations are
  embedded as `Int` nanoseconds.
-/

namespace LynxPolaris

/-- Go byte length of a string: `len(s)` in Go counts UTF-8 bytes. -/
def goByteLen (s : String) : Nat :=
  (s.data.map Char.utf8Size).sum

/-- Character class of the namespace regular expression `[a-zA-Z0-9_-]`. -/
def isNsChar (c : Char) : Bool :=
  (('a' ≤ c) && (c ≤ 'z')) || (('A' ≤ c) && (c ≤ 'Z')) ||
  (('0' ≤ c) && (c ≤ '9')) || (c == '_') || (c == '-')

/-- Whole-string match of the Go regular expression `^[a-zA-Z0-9_-]+$`. -/
def nsRegexMatches (s : String) : Bool :=
  !s.data.isEmpty && s.data.all isNsChar

/-- ASCII lower-casing of one character, as Go `strings.ToLower` acts on
the ASCII range (the sensitive-word comparisons only involve ASCII). -/
def goLowerChar (c : Char) : Char :=
  if ('A' ≤ c) && (c ≤ 'Z') then Char.ofNat (c.toNat + 32) else c

/-- Embedding of Go `strings.ToLower` (ASCII range). -/
def goToLower (s : String) : String :=
  ⟨s.data.map goLowerChar⟩

/-- Does the character list start with the given pattern? -/
def startsWithL : List Char → List Char → Bool
  | [], _ => true
  | _ :: _, [] => false
  | p :: ps, c :: cs => (p == c) && startsWithL ps cs

/-- Does `pat` occur as a contiguous run inside `s`? -/
def containsL : List Char → List Char → Bool
  | [], pat => pat.isEmpty
  | c :: t, pat => startsWithL pat (c :: t) || containsL t pat

/-- Embedding of Go `strings.Contains(s, sub)`. -/
def goContains (s sub : String) : Bool :=
  containsL s.data sub.data

/-- Whitespace characters trimmed by Go `strings.TrimSpace` (ASCII part). -/
def isGoSpace (c : Char) : Bool :=
  (c == ' ') || (c == '\t') || (c == '\n') ||
  (c == Char.ofNat 11) || (c == Char.ofNat 12) || (c == '\r')

/-- Embedding of Go `strings.TrimSpace`. -/
def goTrimSpace (s : String) : String :=
  ⟨((s.data.dropWhile isGoSpace).reverse.dropWhile isGoSpace).reverse⟩

/-- Splitting a character list at each comma, Go `strings.Split(s, ",")`. -/
def splitCommaL : List Char → List (List Char)
  | [] => [[]]
  | c :: t =>
    let r := splitCommaL t
    if c == ',' then [] :: r
    else
      match r with
      | [] => [[c]]
      | h :: rt => (c :: h) :: rt

/-- Embedding of Go `strings.Split(s, ",")`. -/
def goSplitComma (s : String) : List String :=
  (splitCommaL s.data).map (fun l => ⟨l⟩)

/-- The field names that validation errors in the validator file use
("namespace", "token", "weight", "ttl", "max_retry_times", "timeout",
"config"), embedded as an enumeration. -/
inductive FieldName where
  | nsField
  | tokenField
  | weightField
  | ttlField
  | maxRetryTimesField
  | timeoutField
  | configField
deriving DecidableEq, Repr

/-- The message templates of the validator's AddError call sites, with the
numeric format arguments kept; rendering to text is not modelled. -/
inductive MsgName where
  | nsEmpty
  | nsTooLong
  | nsBadChars
  | nsSensitive (w : String)
  | tokenTooLong
  | tokenTooShort
  | tokenNeedsComplexity
  | weightRange (lo hi : Int)
  | ttlRange (lo hi : Int)
  | retryRange (lo hi : Int)
  | timeoutRange (lo hi : Int)
  | timeoutNotLessThanTtl
  | configRequired
deriving DecidableEq, Repr

/-- The Go `interface\x7b\x7d` values stored in a ValidationError. -/
inductive GoValue where
  | strV (s : String)
  | intV (i : Int)
  | durV (ns : Int)
  | nilV
deriving DecidableEq, Repr

/-- ValidationError: configuration validation error. -/
structure ValidationError where
  Field : FieldName
  Message : MsgName
  Value : GoValue
deriving DecidableEq, Repr

/-- ValidationResult: validation result. -/
structure ValidationResult where
  IsValid : Bool
  Errors : List ValidationError
deriving DecidableEq, Repr

/-- NewValidationResult creates a validation result. -/
def NewValidationResult : ValidationResult :=
  { IsValid := true, Errors := [] }

/-- AddError adds an error: sets IsValid false and appends the error. -/
def ValidationResult.AddError (r : ValidationResult)
    (f : FieldName) (m : MsgName) (v : GoValue) : ValidationResult :=
  { IsValid := false, Errors := r.Errors ++ [⟨f, m, v⟩] }

/-- Conditional AddError, the `if cond \x7b result.AddError(...) \x7d`
pattern of the validator file. -/
def addErrorIf (c : Prop) [Decidable c] (f : FieldName) (m : MsgName)
    (v : GoValue) (r : ValidationResult) : ValidationResult :=
  if c then r.AddError f m v else r

/-- The `conf.Polaris` configuration fields read by the validator and by
cleanup.go.  `Timeout` and `ShutdownTimeout` are nilable duration pointers,
embedded as `Option Int` (nanoseconds). -/
structure Conf where
  Namespace : String
  Token : String
  Weight : Int
  Ttl : Int
  MaxRetryTimes : Int
  Timeout : Option Int
  ShutdownTimeout : Option Int
deriving DecidableEq, Repr

/-- The numeric constants of the `conf` package (its source is not in the
repository snapshot), kept abstract; cleanup.go and the validator read
them. Durations are nanoseconds. -/
structure KConsts where
  minWeight : Int
  maxWeight : Int
  minTTL : Int
  maxTTL : Int
  minRetryTimes : Int
  maxRetryTimes : Int
  minTimeoutSeconds : Int
  maxTimeoutSeconds : Int
  minShutdownTimeout : Int
  maxShutdownTimeout : Int
  defaultShutdownTimeout : Int
deriving DecidableEq, Repr

/-- The process environment as seen through `os.Getenv`: unset variables
read as the empty string. -/
def GoEnv : Type := String → String

/-- The environment with no Polaris variables set. -/
def emptyGoEnv : GoEnv := fun _ => ""

def complexityEnvKey : String := "POLARIS_ENABLE_TOKEN_COMPLEXITY_CHECK"

def disableSensitiveEnvKey : String := "POLARIS_DISABLE_NAMESPACE_SENSITIVE_CHECK"

def sensitiveWordsEnvKey : String := "POLARIS_NAMESPACE_SENSITIVE_WORDS"

/-- defaultNamespaceSensitiveWords returns the default list when not
overridden by env. -/
def defaultNamespaceSensitiveWords : List String :=
  ["admin", "root", "system", "internal"]

/-- Does the token contain an ASCII letter (the validator's hasLetter loop)? -/
def tokenHasLetter (s : String) : Bool :=
  s.data.any (fun c => (('a' ≤ c) && (c ≤ 'z')) || (('A' ≤ c) && (c ≤ 'Z')))

/-- Does the token contain an ASCII digit (the validator's hasDigit loop)? -/
def tokenHasDigit (s : String) : Bool :=
  s.data.any (fun c => ('0' ≤ c) && (c ≤ '9'))

/-- validateBasicFields validates basic fields: the namespace
empty/length/format chain and the two token length checks; token errors
record "[REDACTED]" as the value. -/
def validateBasicFields (cfg : Conf) (r : ValidationResult) : ValidationResult :=
  let r :=
    if cfg.Namespace = "" then
      r.AddError .nsField .nsEmpty (.strV cfg.Namespace)
    else if goByteLen cfg.Namespace > 64 then
      r.AddError .nsField .nsTooLong (.strV cfg.Namespace)
    else if !nsRegexMatches cfg.Namespace then
      r.AddError .nsField .nsBadChars (.strV cfg.Namespace)
    else r
  let r := addErrorIf (cfg.Token ≠ "" ∧ goByteLen cfg.Token > 1024)
    .tokenField .tokenTooLong (.strV "[REDACTED]") r
  addErrorIf (cfg.Token ≠ "" ∧ goByteLen cfg.Token < 8)
    .tokenField .tokenTooShort (.strV "[REDACTED]") r

/-- validateNumericRanges validates numeric ranges against the conf
constants. -/
def validateNumericRanges (k : KConsts) (cfg : Conf) (r : ValidationResult) :
    ValidationResult :=
  let r := addErrorIf (cfg.Weight < k.minWeight ∨ cfg.Weight > k.maxWeight)
    .weightField (.weightRange k.minWeight k.maxWeight) (.intV cfg.Weight) r
  let r := addErrorIf (cfg.Ttl < k.minTTL ∨ cfg.Ttl > k.maxTTL)
    .ttlField (.ttlRange k.minTTL k.maxTTL) (.intV cfg.Ttl) r
  addErrorIf (cfg.MaxRetryTimes < k.minRetryTimes ∨ cfg.MaxRetryTimes > k.maxRetryTimes)
    .maxRetryTimesField (.retryRange k.minRetryTimes k.maxRetryTimes)
    (.intV cfg.MaxRetryTimes) r

/-- validateEnumValues: no enum value fields, no-op. -/
def validateEnumValues (r : ValidationResult) : ValidationResult := r

/-- validateTimeConfigs validates the timeout range (seconds bounds,
compared in nanoseconds via AsDuration). -/
def validateTimeConfigs (k : KConsts) (cfg : Conf) (r : ValidationResult) :
    ValidationResult :=
  match cfg.Timeout with
  | none => r
  | some t =>
    addErrorIf (t < k.minTimeoutSeconds * 1000000000 ∨
                t > k.maxTimeoutSeconds * 1000000000)
      .timeoutField (.timeoutRange k.minTimeoutSeconds k.maxTimeoutSeconds)
      (.durV t) r

/-- validateDependencies: timeout must be less than TTL when both set. -/
def validateDependencies (cfg : Conf) (r : ValidationResult) : ValidationResult :=
  match cfg.Timeout with
  | none => r
  | some t =>
    addErrorIf (cfg.Ttl > 0 ∧ t ≥ cfg.Ttl * 1000000000)
      .timeoutField .timeoutNotLessThanTtl (.durV t) r

/-- The sensitive-word list in effect: the env override (split on commas,
each entry lower-cased then trimmed) or the default list. -/
def activeSensitiveWords (env : GoEnv) : List String :=
  if env sensitiveWordsEnvKey ≠ "" then
    (goSplitComma (env sensitiveWordsEnvKey)).map
      (fun s => goTrimSpace (goToLower s))
  else defaultNamespaceSensitiveWords

/-- validateSecurityConfigs validates security-related configurations:
the optional token complexity check, then the namespace sensitive-word
scan (first non-empty hit recorded, then return). -/
def validateSecurityConfigs (cfg : Conf) (env : GoEnv) (r : ValidationResult) :
    ValidationResult :=
  let r := addErrorIf
    (cfg.Token ≠ "" ∧ env complexityEnvKey = "1" ∧
      ¬(tokenHasLetter cfg.Token = true ∧ tokenHasDigit cfg.Token = true))
    .tokenField .tokenNeedsComplexity (.strV "[REDACTED]") r
  if cfg.Namespace = "" then r
  else if env disableSensitiveEnvKey = "1" ∨ env disableSensitiveEnvKey = "true" then r
  else
    match (activeSensitiveWords env).find?
        (fun w => (w != "") && goContains (goToLower cfg.Namespace) w) with
    | some w => r.AddError .nsField (.nsSensitive w) (.strV cfg.Namespace)
    | none => r

/-- validateNetworkConfigs: no additional network validations, no-op. -/
def validateNetworkConfigs (r : ValidationResult) : ValidationResult := r

/-- validatePerformanceConfigs: no additional validations, no-op. -/
def validatePerformanceConfigs (r : ValidationResult) : ValidationResult := r

/-- Validate validates the configuration: nil-config guard, then the
validator pipeline in source order. -/
def Validate (k : KConsts) (config : Option Conf) (env : GoEnv) :
    ValidationResult :=
  match config with
  | none => NewValidationResult.AddError .configField .configRequired .nilV
  | some cfg =>
    let r := NewValidationResult
    let r := validateBasicFields cfg r
    let r := validateNumericRanges k cfg r
    let r := validateEnumValues r
    let r := validateTimeConfigs k cfg r
    let r := validateDependencies cfg r
    let r := validateSecurityConfigs cfg env r
    let r := validateNetworkConfigs r
    validatePerformanceConfigs r

/-- ValidateConfig: convenient validation wrapper, non-nil error exactly
when the result is invalid (the error wraps the recorded errors). -/
def ValidateConfig (k : KConsts) (config : Option Conf) (env : GoEnv) :
    Option (List ValidationError) :=
  let r := Validate k config env
  if r.IsValid then none else some r.Errors

/-- Does the result hold an error for the given field? -/
def hasFieldErr (r : ValidationResult) (f : FieldName) : Bool :=
  r.Errors.any (fun e => e.Field == f)

/-- A service instance as the handlers read it: only the health flag
matters (`instance.IsHealthy()`); slice entries may be nil. -/
structure Inst where
  healthy : Bool
deriving DecidableEq, Repr

/-- A configuration file as the handlers read it: `GetContent()`. -/
structure ConfigFile where
  content : String
deriving DecidableEq, Repr

/-- The observable side-effecting calls made by the change and
watch-error handlers of the watch file, in the order the handler bodies
invoke them. -/
inductive Step where
  | recordServiceDiscoveryMetric
  | updateServiceInstanceCache
  | recordServiceChangeAudit
  | notifyServiceChangeStep
  | triggerLoadBalancerUpdate
  | checkServiceHealth
  | recordConfigChangeMetric
  | recordConfigChangeAudit
  | updateConfigCache
  | notifyConfigChangeStep
  | triggerConfigReload
  | validateConfigChangeStep
  | recordServiceWatchErrorMetric
  | recordServiceWatchErrorAudit
  | sendServiceWatchAlert
  | serviceWatchDegradation
  | spawnServiceRetryLoop (key : String)
  | recordConfigWatchErrorMetric
  | recordConfigWatchErrorAudit
  | sendConfigWatchAlert
  | configWatchDegradation
  | spawnConfigRetryLoop (key : String)
deriving DecidableEq, Repr

/-- The PlugPolaris state the handlers and GetNamespace touch: the atomic
destroyed flag, the nilable configuration, whether metrics are present,
and the per-key retry-loop guards of both families. -/
structure PState where
  destroyed : Bool
  conf : Option Conf
  hasMetrics : Bool
  serviceRetryGuards : List String
  configRetryGuards : List String
deriving DecidableEq, Repr

/-- GetNamespace returns the namespace; "default" when the plugin is
destroyed or not configured. -/
def GetNamespace (p : PState) : String :=
  if p.destroyed then "default"
  else
    match p.conf with
    | some c => c.Namespace
    | none => "default"

/-- The notification record built by notifyServiceChange. -/
structure ServiceChangeNotice where
  serviceName : String
  namespaceName : String
  instanceCount : Nat
  healthyCount : Nat
  unhealthyCount : Nat
deriving DecidableEq, Repr

/-- One iteration of notifyServiceChange's health-counting loop: nil
entries are skipped, healthy instances bump healthy, others unhealthy. -/
def healthStep (acc : Nat × Nat) (i : Option Inst) : Nat × Nat :=
  match i with
  | none => acc
  | some x => if x.healthy then (acc.1 + 1, acc.2) else (acc.1, acc.2 + 1)

/-- The healthy/unhealthy counting loop of notifyServiceChange. -/
def countHealthLoop (instances : List (Option Inst)) : Nat × Nat :=
  instances.foldl healthStep (0, 0)

/-- notifyServiceChange builds the generic service-change notification
(healthy/unhealthy instance counts); nil config is a no-op. -/
def notifyServiceChange (conf : Option Conf) (serviceName : String)
    (instances : List (Option Inst)) : Option ServiceChangeNotice :=
  match conf with
  | none => none
  | some c =>
    let counts := countHealthLoop instances
    some { serviceName := serviceName, namespaceName := c.Namespace,
           instanceCount := instances.length,
           healthyCount := counts.1, unhealthyCount := counts.2 }

/-- The notification record built by notifyConfigChange. -/
structure ConfigChangeNotice where
  configFile : String
  group : String
  namespaceName : String
  contentLength : Nat
deriving DecidableEq, Repr

/-- notifyConfigChange builds the generic config-change notification
(content length); nil config is a no-op. -/
def notifyConfigChange (conf : Option Conf) (fileName group : String)
    (config : ConfigFile) : Option ConfigChangeNotice :=
  match conf with
  | none => none
  | some c =>
    some { configFile := fileName, group := group, namespaceName := c.Namespace,
           contentLength := goByteLen config.content }

/-- handleServiceInstancesChanged: destroyed/nil-conf guard, optional
metric, then cache update, audit, notification, load-balancer trigger,
health check — as the trace of calls the handler body makes. -/
def handleServiceInstancesChanged (p : PState) (serviceName : String)
    (instances : List (Option Inst)) : List Step :=
  if p.destroyed ∨ p.conf = none then []
  else
    (if p.hasMetrics then [Step.recordServiceDiscoveryMetric] else []) ++
    [Step.updateServiceInstanceCache,
     Step.recordServiceChangeAudit,
     Step.notifyServiceChangeStep,
     Step.triggerLoadBalancerUpdate,
     Step.checkServiceHealth]

/-- handleConfigChanged: destroyed/nil-conf guard, optional metric, then
audit, cache update, notification, reload trigger, validation — as the
trace of calls the handler body makes. -/
def handleConfigChanged (p : PState) (fileName group : String)
    (config : ConfigFile) : List Step :=
  if p.destroyed ∨ p.conf = none then []
  else
    (if p.hasMetrics then [Step.recordConfigChangeMetric] else []) ++
    [Step.recordConfigChangeAudit,
     Step.updateConfigCache,
     Step.notifyConfigChangeStep,
     Step.triggerConfigReload,
     Step.validateConfigChangeStep]

/-- Modelled from the spec: tryStartServiceWatchRetry, the per-key
RetryGuard compare-and-set (its source file is not in the snapshot; only
its caller handleServiceWatchError is).  Returns true and records the key
exactly when no retry loop is live for that key. -/
def tryStartServiceWatchRetry (p : PState) (serviceName : String) :
    Bool × PState :=
  if p.serviceRetryGuards.contains serviceName then (false, p)
  else (true, { p with serviceRetryGuards := serviceName :: p.serviceRetryGuards })

/-- Modelled from the spec: tryStartConfigWatchRetry, the per-key
RetryGuard compare-and-set for the config family (source not in the
snapshot). -/
def tryStartConfigWatchRetry (p : PState) (configKey : String) :
    Bool × PState :=
  if p.configRetryGuards.contains configKey then (false, p)
  else (true, { p with configRetryGuards := configKey :: p.configRetryGuards })

/-- handleServiceWatchError: destroyed guard, optional metric, audit,
alert, degradation, then a retry goroutine spawned only when the guard
compare-and-set succeeds. -/
def handleServiceWatchError (p : PState) (serviceName : String) :
    PState × List Step :=
  if p.destroyed then (p, [])
  else
    let base := (if p.hasMetrics then [Step.recordServiceWatchErrorMetric] else []) ++
      [Step.recordServiceWatchErrorAudit,
       Step.sendServiceWatchAlert,
       Step.serviceWatchDegradation]
    let g := tryStartServiceWatchRetry p serviceName
    if g.1 then (g.2, base ++ [Step.spawnServiceRetryLoop serviceName])
    else (g.2, base)

/-- handleConfigWatchError: destroyed guard, optional metric, audit,
alert, degradation, then a retry goroutine spawned only when the guard
compare-and-set for the key `fileName:group` succeeds. -/
def handleConfigWatchError (p : PState) (fileName group : String) :
    PState × List Step :=
  if p.destroyed then (p, [])
  else
    let base := (if p.hasMetrics then [Step.recordConfigWatchErrorMetric] else []) ++
      [Step.recordConfigWatchErrorAudit,
       Step.sendConfigWatchAlert,
       Step.configWatchDegradation]
    let configKey := fileName ++ ":" ++ group
    let g := tryStartConfigWatchRetry p configKey
    if g.1 then (g.2, base ++ [Step.spawnConfigRetryLoop configKey])
    else (g.2, base)

/-- Does `a` occur strictly before some later occurrence of `b` in the
trace? -/
def occursBefore (l : List Step) (a b : Step) : Bool :=
  match l with
  | [] => false
  | x :: t => ((x == a) && t.contains b) || occursBefore t a b

/-- Number of retry-loop spawns for a given service key in a trace. -/
def countServiceSpawns (l : List Step) (key : String) : Nat :=
  l.countP (fun s => s == Step.spawnServiceRetryLoop key)

/-- Number of retry-loop spawns for a given config key in a trace. -/
def countConfigSpawns (l : List Step) (key : String) : Nat :=
  l.countP (fun s => s == Step.spawnConfigRetryLoop key)

/-- The phases of CleanupTasks as executed on the calling goroutine, in
source order. -/
inductive CPhase where
  | recordCleanupStartMetric
  | restoreControlPlane
  | stopHealthCheck
  | cleanupWatchers
  | sdkTeardown
  | timeoutWarning
  | stopBackgroundTasks
  | releaseMemoryResources
deriving DecidableEq, Repr

/-- The plugin state CleanupTasks touches. -/
structure CState where
  initialized : Bool
  destroyed : Bool
  hasMetrics : Bool
  conf : Option Conf
deriving DecidableEq, Repr

/-- getShutdownTimeoutDuration returns the configured shutdown timeout
for cleanup: positive configured values are clamped to the conf bounds,
otherwise the default applies.  Durations in nanoseconds. -/
def getShutdownTimeoutDuration (k : KConsts) (conf : Option Conf) : Int :=
  match conf with
  | none => k.defaultShutdownTimeout
  | some c =>
    match c.ShutdownTimeout with
    | none => k.defaultShutdownTimeout
    | some d0 =>
      if d0 > 0 then
        let d1 := if d0 < k.minShutdownTimeout then k.minShutdownTimeout else d0
        let d2 := if d1 > k.maxShutdownTimeout then k.maxShutdownTimeout else d1
        d2
      else k.defaultShutdownTimeout

/-- Time the main goroutine spends in the select over the teardown
goroutine's done channel and `time.After(timeout)`: the teardown duration
(`none` = the close call never returns) capped by the timeout. -/
def waitElapsed (timeout : Int) (teardownTime : Option Int) : Int :=
  match teardownTime with
  | none => timeout
  | some d => min d timeout

/-- Did the select hit the timeout arm (teardown not done in time)? -/
def teardownTimedOut (timeout : Int) (teardownTime : Option Int) : Bool :=
  match teardownTime with
  | none => true
  | some d => d > timeout

/-- CleanupTasks: the initialized/destroyed guard returns nil at once;
otherwise the destroyed flag is set, watcher/health-check/control-plane
teardown runs untimed, the SDK/instance teardown goroutine is awaited
under the shutdown timeout (a warning when it does not finish), and
background tasks and memory are released.  Result: final state, phase
trace, elapsed time (`localWork` abstracts the untimed local work), and
the returned error (always nil, as in the source). -/
def CleanupTasks (k : KConsts) (s : CState) (localWork : Int)
    (teardownTime : Option Int) :
    CState × List CPhase × Int × Option String :=
  if ¬s.initialized ∨ s.destroyed then (s, [], 0, none)
  else
    let timeout := getShutdownTimeoutDuration k s.conf
    let s1 : CState := { s with destroyed := true }
    let pre := (if s.hasMetrics then [CPhase.recordCleanupStartMetric] else []) ++
      [CPhase.restoreControlPlane, CPhase.stopHealthCheck,
       CPhase.cleanupWatchers, CPhase.sdkTeardown]
    let warn := if teardownTimedOut timeout teardownTime
      then [CPhase.timeoutWarning] else []
    let post := [CPhase.stopBackgroundTasks, CPhase.releaseMemoryResources]
    let s2 : CState := { s1 with hasMetrics := false, conf := none }
    (s2, pre ++ warn ++ post, localWork + waitElapsed timeout teardownTime, none)

/-- First index of a phase in a trace (length when absent). -/
def phaseIdx (l : List CPhase) (p : CPhase) : Nat :=
  match l with
  | [] => 0
  | x :: t => if x == p then 0 else phaseIdx t p + 1

/-- Modelled from the spec: RetryManager.DoWithRetry (the retry manager's
source file is not in the snapshot; only its tests are).  The operation's
outcome on its i-th invocation is `op i` (`none` = success); the loop
invokes the operation, and on failure sleeps the backoff and retries up
to `maxAttempts` more times, returning the first success or the last
error.  Result: final outcome, number of invocations, number of backoff
delays slept. -/
def doWithRetryFrom {E : Type} (op : Nat → Option E) :
    Nat → Nat → Option E × Nat × Nat
  | 0, i =>
    match op i with
    | none => (none, 1, 0)
    | some e => (some e, 1, 0)
  | remaining + 1, i =>
    match op i with
    | none => (none, 1, 0)
    | some _ =>
      let r := doWithRetryFrom op remaining (i + 1)
      (r.1, r.2.1 + 1, r.2.2 + 1)

/-- Modelled from the spec: DoWithRetry with `maxAttempts` additional
attempts after the first. -/
def DoWithRetry {E : Type} (maxAttempts : Nat) (op : Nat → Option E) :
    Option E × Nat × Nat :=
  doWithRetryFrom op maxAttempts 0

/-- The three namespace conditions the spec states: non-empty, at most 64
characters, and matching `[a-zA-Z0-9_-]+` (spec-side definition for
comparison with the validator). -/
def specNamespaceOk (ns : String) : Bool :=
  (ns != "") && decide (goByteLen ns ≤ 64) && nsRegexMatches ns

/-- The token condition the spec states: empty, or between 8 and 1024
characters long (spec-side definition for comparison with the
validator). -/
def specTokenOk (tok : String) : Bool :=
  (tok == "") || (decide (8 ≤ goByteLen tok) && decide (goByteLen tok ≤ 1024))

/-- The namespace sensitive-word condition under which
validateSecurityConfigs records a namespace error. -/
def securityNsErrCond (cfg : Conf) (env : GoEnv) : Bool :=
  (cfg.Namespace != "") &&
  !((env disableSensitiveEnvKey == "1") || (env disableSensitiveEnvKey == "true")) &&
  ((activeSensitiveWords env).find?
    (fun w => (w != "") && goContains (goToLower cfg.Namespace) w)).isSome

/-- The token complexity condition under which validateSecurityConfigs
records a token error. -/
def securityTokenErrCond (cfg : Conf) (env : GoEnv) : Bool :=
  (cfg.Token != "") && (env complexityEnvKey == "1") &&
  !(tokenHasLetter cfg.Token && tokenHasDigit cfg.Token)

/-- Token errors never leak the token: every token-field error records
"[REDACTED]" as its value. -/
def TokenRedacted (e : ValidationError) : Prop :=
  e.Field = .tokenField → e.Value = .strV "[REDACTED]"

/-- The ValidationResult invariant: IsValid holds exactly when the error
list is empty. -/
def InvHolds (r : ValidationResult) : Prop :=
  r.IsValid = true ↔ r.Errors = []

/-- Healthy instances (non-nil, IsHealthy) in a slice. -/
def countHealthy (instances : List (Option Inst)) : Nat :=
  instances.countP (fun i => match i with | some x => x.healthy | none => false)

/-- Unhealthy instances (non-nil, not IsHealthy) in a slice. -/
def countUnhealthy (instances : List (Option Inst)) : Nat :=
  instances.countP (fun i => match i with | some x => !x.healthy | none => false)

/-- A sample conf-constants record with the values known from the
repository's comments and tests (for concrete evaluation). -/
def k0 : KConsts :=
  { minWeight := 0, maxWeight := 1000, minTTL := 5, maxTTL := 300,
    minRetryTimes := 0, maxRetryTimes := 10,
    minTimeoutSeconds := 1, maxTimeoutSeconds := 60,
    minShutdownTimeout := 1000000000, maxShutdownTimeout := 30000000000,
    defaultShutdownTimeout := 5000000000 }

/-- A sample valid configuration (mirrors the valid config of the test
file). -/
def cfg0 : Conf :=
  { Namespace := "test-namespace", Token := "", Weight := 100, Ttl := 30,
    MaxRetryTimes := 3, Timeout := some 10000000000,
    ShutdownTimeout := none }

/-- A configuration whose namespace is the sensitive word "admin". -/
def cfgAdmin : Conf :=
  { Namespace := "admin", Token := "", Weight := 100, Ttl := 30,
    MaxRetryTimes := 3, Timeout := some 10000000000,
    ShutdownTimeout := none }

/-- A live, configured plugin state with no metrics and no live retry
loops. -/
def p0 : PState :=
  { destroyed := false, conf := some cfg0, hasMetrics := false,
    serviceRetryGuards := [], configRetryGuards := [] }

/-- A destroyed plugin state that still holds a configuration. -/
def pDestroyed : PState :=
  { destroyed := true, conf := some cfg0, hasMetrics := true,
    serviceRetryGuards := [], configRetryGuards := [] }

/-- A live plugin state that was never configured. -/
def pFresh : PState :=
  { destroyed := false, conf := none, hasMetrics := false,
    serviceRetryGuards := [], configRetryGuards := [] }

/-- An initialized, not yet destroyed cleanup state. -/
def s0 : CState :=
  { initialized := true, destroyed := false, hasMetrics := false,
    conf := some cfg0 }

/-- A sample configuration file. -/
def file0 : ConfigFile := { content := "key: value" }

/-
  Theorems.
-/

theorem hasFieldErr_AddError (r : ValidationResult) (f : FieldName)
    (m : MsgName) (v : GoValue) (f2 : FieldName) :
    hasFieldErr (r.AddError f m v) f2 = (hasFieldErr r f2 || (f == f2)) := by
  simp [ValidationResult.AddError, hasFieldErr]

theorem hasFieldErr_addErrorIf (c : Prop) [Decidable c] (f : FieldName)
    (m : MsgName) (v : GoValue) (r : ValidationResult) (f2 : FieldName) :
    hasFieldErr (addErrorIf c f m v r) f2 =
      (hasFieldErr r f2 || (decide c && (f == f2))) := by
  unfold addErrorIf
  split
  · next h => simp [hasFieldErr_AddError, h]
  · next h => simp [h]

theorem doWithRetryFrom_allFail {E : Type} (op : Nat → Option E) (e : Nat → E)
    (h : ∀ i, op i = some (e i)) :
    ∀ n i, doWithRetryFrom op n i = (some (e (i + n)), n + 1, n) := by
  intro n
  induction n with
  | zero => intro i; simp [doWithRetryFrom, h i]
  | succ m ih =>
    intro i
    have hs := ih (i + 1)
    simp only [doWithRetryFrom, h i, hs]
    have : i + 1 + m = i + (m + 1) := by omega
    simp [this]

/-- Claim C9: for every maxAttempts = n, DoWithRetry invokes a permanently
failing operation exactly n + 1 times, sleeps n backoff delays, and
returns the last error; a succeeding operation is invoked exactly once
with no delay (n = 0 gives exactly one attempt and no delay). -/
theorem c9_retry_attempt_counts {E : Type} (n : Nat) (op : Nat → Option E)
    (e : Nat → E) :
    ((∀ i, op i = some (e i)) → DoWithRetry n op = (some (e n), n + 1, n)) ∧
    (op 0 = none → DoWithRetry n op = (none, 1, 0)) := by
  constructor
  · intro h
    have := doWithRetryFrom_allFail op e h n 0
    simpa [DoWithRetry] using this
  · intro h
    cases n <;> simp [DoWithRetry, doWithRetryFrom, h]

/-- Witness for C9 at n = 3 (the configuration of the repository's retry
test): a permanently failing operation is invoked 4 times, a succeeding
one once. -/
theorem c9_retry_attempt_counts_witness :
    DoWithRetry 3 (fun _ => some 7) = (some 7, 4, 3) ∧
    DoWithRetry 3 (fun _ : Nat => (none : Option Nat)) = (none, 1, 0) :=
  ⟨(c9_retry_attempt_counts 3 (fun _ => some 7) (fun _ => 7)).1 (fun _ => rfl),
   (c9_retry_attempt_counts 3 (fun _ : Nat => (none : Option Nat))
      (fun _ => 0)).2 rfl⟩

/-- Claim C5: getShutdownTimeoutDuration clamps a positive configured
timeout into [MinShutdownTimeout, MaxShutdownTimeout] (identity inside
the range, min below it, max above it) and returns
DefaultShutdownTimeout when the configuration is nil, the field unset,
or the value non-positive. -/
theorem c5_shutdown_timeout_clamp (k : KConsts) (c : Conf) (d : Int)
    (hk : k.minShutdownTimeout ≤ k.maxShutdownTimeout) :
    (getShutdownTimeoutDuration k none = k.defaultShutdownTimeout) ∧
    (∀ c2 : Conf, c2.ShutdownTimeout = none →
      getShutdownTimeoutDuration k (some c2) = k.defaultShutdownTimeout) ∧
    (c.ShutdownTimeout = some d → d ≤ 0 →
      getShutdownTimeoutDuration k (some c) = k.defaultShutdownTimeout) ∧
    (c.ShutdownTimeout = some d → 0 < d →
      (k.minShutdownTimeout ≤ getShutdownTimeoutDuration k (some c) ∧
       getShutdownTimeoutDuration k (some c) ≤ k.maxShutdownTimeout) ∧
      (d < k.minShutdownTimeout →
        getShutdownTimeoutDuration k (some c) = k.minShutdownTimeout) ∧
      (k.maxShutdownTimeout < d →
        getShutdownTimeoutDuration k (some c) = k.maxShutdownTimeout) ∧
      (k.minShutdownTimeout ≤ d → d ≤ k.maxShutdownTimeout →
        getShutdownTimeoutDuration k (some c) = d)) := by
  refine ⟨rfl, ?_, ?_, ?_⟩
  · intro c2 h; simp [getShutdownTimeoutDuration, h]
  · intro h hle; simp [getShutdownTimeoutDuration, h]; omega
  · intro h hpos
    simp only [getShutdownTimeoutDuration, h]
    refine ⟨?_, ?_, ?_, ?_⟩ <;> split <;> rename_i h1 <;> try split <;> try omega

/-- Witness for C5: with the sample constants and a configured 2-second
timeout, the clamp conjuncts evaluate at concrete inputs. -/
theorem c5_shutdown_timeout_clamp_witness :
    k0.minShutdownTimeout ≤ k0.maxShutdownTimeout ∧
    ({ cfg0 with ShutdownTimeout := some 2000000000 } : Conf).ShutdownTimeout
        = some 2000000000 ∧
    getShutdownTimeoutDuration k0
        (some { cfg0 with ShutdownTimeout := some 2000000000 }) = 2000000000 := by
  have h := c5_shutdown_timeout_clamp k0
    { cfg0 with ShutdownTimeout := some 2000000000 } 2000000000 (by decide)
  exact ⟨by decide, rfl,
    (((h.2.2.2 rfl (by decide)).2.2.2) (by decide) (by decide))⟩

/-- Claim C4: CleanupTasks is idempotent — when the plugin is not
initialized or already destroyed it returns nil at once with no teardown
phase and an unchanged state, and a successful first invocation sets the
destroyed flag, making every later invocation a no-op. -/
theorem c4_cleanup_idempotent (k : KConsts) (s : CState) (w w2 : Int)
    (td td2 : Option Int) :
    ((s.initialized = false ∨ s.destroyed = true) →
      CleanupTasks k s w td = (s, [], 0, none)) ∧
    (s.initialized = true → s.destroyed = false →
      (CleanupTasks k s w td).1.destroyed = true ∧
      (CleanupTasks k s w td).2.2.2 = none ∧
      CleanupTasks k (CleanupTasks k s w td).1 w2 td2 =
        ((CleanupTasks k s w td).1, [], 0, none)) := by
  have hguard : ∀ s2 : CState, s2.destroyed = true →
      CleanupTasks k s2 w2 td2 = (s2, [], 0, none) := by
    intro s2 h2
    unfold CleanupTasks
    simp [h2]
  constructor
  · intro h
    unfold CleanupTasks
    rcases h with h | h <;> simp [h]
  · intro hi hd
    have h1 : (CleanupTasks k s w td).1.destroyed = true := by
      unfold CleanupTasks; simp [hi, hd]
    refine ⟨h1, ?_, hguard _ h1⟩
    unfold CleanupTasks
    simp [hi, hd]

/-- Witness for C4: an uninitialized state is untouched, and running
cleanup on the initialized sample state marks it destroyed. -/
theorem c4_cleanup_idempotent_witness :
    CleanupTasks k0 { s0 with initialized := false } 0 none =
      ({ s0 with initialized := false }, [], 0, none) ∧
    (CleanupTasks k0 s0 0 none).1.destroyed = true :=
  ⟨(c4_cleanup_idempotent k0 { s0 with initialized := false } 0 0 none none).1
      (Or.inl rfl),
   ((c4_cleanup_idempotent k0 s0 0 0 none none).2 rfl rfl).1⟩

/-- Claim C3: in CleanupTasks the watcher teardown phase precedes the
timed SDK/instance teardown, the main goroutine spends at most the
shutdown timeout in that timed phase (so total time is bounded by the
untimed local work plus the timeout, even when the close call never
returns), the timed teardown is attempted exactly once, and a
never-returning teardown produces the warning and exactly the full
timeout wait. -/
theorem c3_cleanup_bounded (k : KConsts) (s : CState) (w : Int)
    (td : Option Int) (hi : s.initialized = true) (hd : s.destroyed = false) :
    (CleanupTasks k s w td).2.2.1 ≤ w + getShutdownTimeoutDuration k s.conf ∧
    phaseIdx (CleanupTasks k s w td).2.1 .cleanupWatchers <
      phaseIdx (CleanupTasks k s w td).2.1 .sdkTeardown ∧
    (CleanupTasks k s w td).2.1.count .sdkTeardown = 1 ∧
    (td = none →
      (CleanupTasks k s w td).2.1.contains CPhase.timeoutWarning = true ∧
      (CleanupTasks k s w td).2.2.1 = w + getShutdownTimeoutDuration k s.conf) := by
  have htrace : (CleanupTasks k s w td).2.1 =
      (if s.hasMetrics then [CPhase.recordCleanupStartMetric] else []) ++
      [CPhase.restoreControlPlane, CPhase.stopHealthCheck,
       CPhase.cleanupWatchers, CPhase.sdkTeardown] ++
      (if teardownTimedOut (getShutdownTimeoutDuration k s.conf) td
        then [CPhase.timeoutWarning] else []) ++
      [CPhase.stopBackgroundTasks, CPhase.releaseMemoryResources] := by
    unfold CleanupTasks
    simp [hi, hd]
  have helapsed : (CleanupTasks k s w td).2.2.1 =
      w + waitElapsed (getShutdownTimeoutDuration k s.conf) td := by
    unfold CleanupTasks
    simp [hi, hd]
  have hwait : waitElapsed (getShutdownTimeoutDuration k s.conf) td ≤
      getShutdownTimeoutDuration k s.conf := by
    cases td with
    | none => simp [waitElapsed]
    | some d =>
      simp only [waitElapsed]
      exact min_le_right d _
  refine ⟨?_, ?_, ?_, ?_⟩
  · rw [helapsed]; omega
  · rw [htrace]
    cases hm : s.hasMetrics <;>
      cases hw : teardownTimedOut (getShutdownTimeoutDuration k s.conf) td <;>
      decide
  · rw [htrace]
    cases hm : s.hasMetrics <;>
      cases hw : teardownTimedOut (getShutdownTimeoutDuration k s.conf) td <;>
      decide
  · intro ht
    subst ht
    rw [htrace, helapsed]
    constructor
    · cases hm : s.hasMetrics <;> simp [teardownTimedOut]
    · simp [waitElapsed]

/-- Witness for C3: cleanup on the sample initialized state with a
never-returning teardown stays within the local work plus the timeout. -/
theorem c3_cleanup_bounded_witness :
    s0.initialized = true ∧ s0.destroyed = false ∧
    (CleanupTasks k0 s0 0 none).2.2.1 ≤
      0 + getShutdownTimeoutDuration k0 s0.conf :=
  ⟨rfl, rfl, (c3_cleanup_bounded k0 s0 0 none rfl rfl).1⟩

/-- Claim C2: per-key retry-loop dedup — when an error event arrives and
the per-key guard compare-and-set succeeds, a retry loop is spawned; a
second error event for the same key while the guard is still set spawns
none, so across the two events exactly one loop is spawned, in both the
service and the config families. -/
theorem c2_retry_loop_dedup (p : PState) (key fn gr : String)
    (hd : p.destroyed = false)
    (hs : p.serviceRetryGuards.contains key = false)
    (hc : p.configRetryGuards.contains (fn ++ ":" ++ gr) = false) :
    countServiceSpawns ((handleServiceWatchError p key).2 ++
      (handleServiceWatchError (handleServiceWatchError p key).1 key).2)
      key = 1 ∧
    countConfigSpawns ((handleConfigWatchError p fn gr).2 ++
      (handleConfigWatchError (handleConfigWatchError p fn gr).1 fn gr).2)
      (fn ++ ":" ++ gr) = 1 := by
  have hsm : key ∉ p.serviceRetryGuards := by simpa using hs
  have hcm : (fn ++ ":" ++ gr) ∉ p.configRetryGuards := by simpa using hc
  constructor
  · unfold handleServiceWatchError tryStartServiceWatchRetry countServiceSpawns
    cases hm : p.hasMetrics <;>
      simp [hd, hsm, hm, List.countP_append, List.countP_cons]
  · unfold handleConfigWatchError tryStartConfigWatchRetry countConfigSpawns
    cases hm : p.hasMetrics <;>
      simp [hd, hcm, hm, List.countP_append, List.countP_cons]

/-- Witness for C2: two service error events for "svc" and two config
error events for "file:group" on the live sample state spawn one retry
loop each. -/
theorem c2_retry_loop_dedup_witness :
    countServiceSpawns ((handleServiceWatchError p0 "svc").2 ++
      (handleServiceWatchError (handleServiceWatchError p0 "svc").1 "svc").2)
      "svc" = 1 ∧
    countConfigSpawns ((handleConfigWatchError p0 "file" "group").2 ++
      (handleConfigWatchError
        (handleConfigWatchError p0 "file" "group").1 "file" "group").2)
      ("file" ++ ":" ++ "group") = 1 :=
  c2_retry_loop_dedup p0 "svc" "file" "group" rfl rfl rfl

/-- Claim C8 counterexample: a destroyed plugin's GetNamespace does not
return a deactivated error — its codomain is a plain string and the call
returns "default", the very value a live unconfigured plugin returns, so
the destroyed case is indistinguishable from an ordinary successful
default-namespace answer (and differs from the stored namespace). -/
theorem c8_counterexample :
    GetNamespace pDestroyed = "default" ∧
    GetNamespace pFresh = "default" ∧
    pDestroyed.conf = some cfg0 ∧
    cfg0.Namespace = "test-namespace" :=
  ⟨rfl, rfl, rfl, rfl⟩

/-- Claim C8 amended: every listed entry point observes the destroyed
flag before doing any work and returns early without touching freed
state — GetNamespace returns the default namespace (not an error), and
the change and watch-error handlers perform no step and leave the state
unchanged. -/
theorem c8_destroyed_entry_points (p : PState) (n : String)
    (inst : List (Option Inst)) (f g : String) (c : ConfigFile)
    (key fn gr : String) (hd : p.destroyed = true) :
    GetNamespace p = "default" ∧
    handleServiceInstancesChanged p n inst = [] ∧
    handleConfigChanged p f g c = [] ∧
    handleServiceWatchError p key = (p, []) ∧
    handleConfigWatchError p fn gr = (p, []) := by
  refine ⟨?_, ?_, ?_, ?_, ?_⟩ <;>
    simp [GetNamespace, handleServiceInstancesChanged, handleConfigChanged,
      handleServiceWatchError, handleConfigWatchError, hd]

/-- Witness for C8 amended: the destroyed sample state takes every early
return. -/
theorem c8_destroyed_entry_points_witness :
    pDestroyed.destroyed = true ∧
    GetNamespace pDestroyed = "default" ∧
    handleServiceInstancesChanged pDestroyed "svc" [] = [] ∧
    handleConfigChanged pDestroyed "file" "group" file0 = [] ∧
    handleServiceWatchError pDestroyed "svc" = (pDestroyed, []) ∧
    handleConfigWatchError pDestroyed "file" "group" = (pDestroyed, []) :=
  ⟨rfl, c8_destroyed_entry_points pDestroyed "svc" [] "file" "group" file0
    "svc" "file" "group" rfl⟩

theorem foldl_healthStep (l : List (Option Inst)) :
    ∀ a b : Nat, l.foldl healthStep (a, b) =
      (a + countHealthy l, b + countUnhealthy l) := by
  induction l with
  | nil => intro a b; simp [countHealthy, countUnhealthy]
  | cons i t ih =>
    intro a b
    cases i with
    | none =>
      simp only [List.foldl_cons, healthStep]
      rw [ih]
      simp [countHealthy, countUnhealthy, List.countP_cons]
    | some x =>
      cases hx : x.healthy <;>
        simp only [List.foldl_cons, healthStep, hx, if_true, if_false,
          Bool.false_eq_true] <;>
        rw [ih] <;>
        simp [countHealthy, countUnhealthy, List.countP_cons, hx] <;>
        omega

theorem countHealthLoop_eq (l : List (Option Inst)) :
    countHealthLoop l = (countHealthy l, countUnhealthy l) := by
  simpa using foldl_healthStep l 0 0

/-- Claim C1 counterexample: on a live configured state, the config
change handler records the audit entry strictly before it replaces the
cached config snapshot, so the claimed cache-then-audit order fails for
the config handler (while the handler did run: its trace is the full
five-step sequence). -/
theorem c1_counterexample :
    occursBefore (handleConfigChanged p0 "app.yaml" "DEFAULT_GROUP" file0)
      Step.updateConfigCache Step.recordConfigChangeAudit = false ∧
    occursBefore (handleConfigChanged p0 "app.yaml" "DEFAULT_GROUP" file0)
      Step.recordConfigChangeAudit Step.updateConfigCache = true ∧
    handleConfigChanged p0 "app.yaml" "DEFAULT_GROUP" file0 =
      [Step.recordConfigChangeAudit, Step.updateConfigCache,
       Step.notifyConfigChangeStep, Step.triggerConfigReload,
       Step.validateConfigChangeStep] := by
  refine ⟨?_, ?_, ?_⟩ <;> decide

/-- Claim C1 amended: on a change event both handlers run their steps
synchronously; the service handler replaces the cached snapshot, then
writes the audit record, then emits the generic notification (with the
healthy/unhealthy instance counts), then triggers the load-balancer
update, then runs the health check; the config handler writes the audit
record first and replaces the cached snapshot second, then emits the
generic notification (with the content length), then triggers the
reload. -/
theorem c1_change_handler_order (p : PState) (cf : Conf) (n : String)
    (inst : List (Option Inst)) (f g : String) (c : ConfigFile)
    (hd : p.destroyed = false) (hc : p.conf = some cf) :
    occursBefore (handleServiceInstancesChanged p n inst)
      Step.updateServiceInstanceCache Step.recordServiceChangeAudit = true ∧
    occursBefore (handleServiceInstancesChanged p n inst)
      Step.recordServiceChangeAudit Step.notifyServiceChangeStep = true ∧
    occursBefore (handleServiceInstancesChanged p n inst)
      Step.notifyServiceChangeStep Step.triggerLoadBalancerUpdate = true ∧
    occursBefore (handleServiceInstancesChanged p n inst)
      Step.triggerLoadBalancerUpdate Step.checkServiceHealth = true ∧
    occursBefore (handleConfigChanged p f g c)
      Step.recordConfigChangeAudit Step.updateConfigCache = true ∧
    occursBefore (handleConfigChanged p f g c)
      Step.updateConfigCache Step.notifyConfigChangeStep = true ∧
    occursBefore (handleConfigChanged p f g c)
      Step.notifyConfigChangeStep Step.triggerConfigReload = true ∧
    notifyServiceChange p.conf n inst =
      some { serviceName := n, namespaceName := cf.Namespace,
             instanceCount := inst.length,
             healthyCount := countHealthy inst,
             unhealthyCount := countUnhealthy inst } ∧
    notifyConfigChange p.conf f g c =
      some { configFile := f, group := g, namespaceName := cf.Namespace,
             contentLength := goByteLen c.content } := by
  have hsvc : handleServiceInstancesChanged p n inst =
      (if p.hasMetrics then [Step.recordServiceDiscoveryMetric] else []) ++
      [Step.updateServiceInstanceCache, Step.recordServiceChangeAudit,
       Step.notifyServiceChangeStep, Step.triggerLoadBalancerUpdate,
       Step.checkServiceHealth] := by
    unfold handleServiceInstancesChanged
    simp [hd, hc]
  have hcfg : handleConfigChanged p f g c =
      (if p.hasMetrics then [Step.recordConfigChangeMetric] else []) ++
      [Step.recordConfigChangeAudit, Step.updateConfigCache,
       Step.notifyConfigChangeStep, Step.triggerConfigReload,
       Step.validateConfigChangeStep] := by
    unfold handleConfigChanged
    simp [hd, hc]
  rw [hsvc, hcfg, hc]
  refine ⟨?_, ?_, ?_, ?_, ?_, ?_, ?_, ?_, ?_⟩ <;>
    first
      | (cases hm : p.hasMetrics <;> decide)
      | (simp [notifyServiceChange, notifyConfigChange, countHealthLoop_eq])

/-- Witness for C1 amended at the live sample state with one healthy and
one nil instance. -/
theorem c1_change_handler_order_witness :
    p0.destroyed = false ∧ p0.conf = some cfg0 ∧
    occursBefore (handleServiceInstancesChanged p0 "svc" [some ⟨true⟩, none])
      Step.updateServiceInstanceCache Step.recordServiceChangeAudit = true ∧
    notifyServiceChange p0.conf "svc" [some ⟨true⟩, none] =
      some { serviceName := "svc", namespaceName := cfg0.Namespace,
             instanceCount := 2,
             healthyCount := countHealthy [some ⟨true⟩, none],
             unhealthyCount := countUnhealthy [some ⟨true⟩, none] } := by
  have h := c1_change_handler_order p0 cfg0 "svc" [some ⟨true⟩, none]
    "file" "group" file0 rfl rfl
  exact ⟨rfl, rfl, h.1, by simpa using h.2.2.2.2.2.2.2.1⟩

theorem ns_err_basicFields (cfg : Conf) (r : ValidationResult) :
    hasFieldErr (validateBasicFields cfg r) .nsField =
      (hasFieldErr r .nsField || !specNamespaceOk cfg.Namespace) := by
  unfold validateBasicFields
  rw [hasFieldErr_addErrorIf, hasFieldErr_addErrorIf]
  have hft : (FieldName.tokenField == FieldName.nsField) = false := rfl
  rw [hft]
  simp only [Bool.and_false, Bool.or_false]
  split_ifs with h1 h2 h3
  · simp [hasFieldErr_AddError, specNamespaceOk, h1]
  · have hlen : decide (goByteLen cfg.Namespace ≤ 64) = false :=
      decide_eq_false (by omega)
    simp [hasFieldErr_AddError, specNamespaceOk, hlen]
  · have hreg : nsRegexMatches cfg.Namespace = false := by
      simpa using h3
    simp [hasFieldErr_AddError, specNamespaceOk, hreg]
  · have h1b : (cfg.Namespace != "") = true := by simp [h1]
    have h2b : decide (goByteLen cfg.Namespace ≤ 64) = true :=
      decide_eq_true (by omega)
    have h3b : nsRegexMatches cfg.Namespace = true := by simpa using h3
    simp [specNamespaceOk, h1b, h2b, h3b]

theorem tokLen_or_split (L : Nat) :
    (decide (L > 1024) || decide (L < 8)) =
      !(decide (8 ≤ L) && decide (L ≤ 1024)) := by
  rw [Bool.eq_iff_iff]
  simp only [Bool.or_eq_true, Bool.not_eq_true', Bool.and_eq_false_iff,
    decide_eq_true_eq, decide_eq_false_iff_not]
  omega

theorem token_err_basicFields (cfg : Conf) (r : ValidationResult) :
    hasFieldErr (validateBasicFields cfg r) .tokenField =
      (hasFieldErr r .tokenField || !specTokenOk cfg.Token) := by
  unfold validateBasicFields
  rw [hasFieldErr_addErrorIf, hasFieldErr_addErrorIf]
  have hnsPart : hasFieldErr
      (if cfg.Namespace = "" then
        r.AddError .nsField .nsEmpty (.strV cfg.Namespace)
      else if goByteLen cfg.Namespace > 64 then
        r.AddError .nsField .nsTooLong (.strV cfg.Namespace)
      else if !nsRegexMatches cfg.Namespace then
        r.AddError .nsField .nsBadChars (.strV cfg.Namespace)
      else r) .tokenField = hasFieldErr r .tokenField := by
    split_ifs <;> simp [hasFieldErr_AddError]
  rw [hnsPart]
  by_cases ht : cfg.Token = ""
  · simp [specTokenOk, ht]
  · have htb : (cfg.Token == "") = false := by simp [ht]
    have hd1 : decide (cfg.Token ≠ "" ∧ goByteLen cfg.Token > 1024) =
        decide (goByteLen cfg.Token > 1024) := by simp [ht]
    have hd2 : decide (cfg.Token ≠ "" ∧ goByteLen cfg.Token < 8) =
        decide (goByteLen cfg.Token < 8) := by simp [ht]
    have hff : (FieldName.tokenField == FieldName.tokenField) = true := rfl
    simp only [specTokenOk, htb, Bool.false_or, hd1, hd2, hff, Bool.and_true]
    rw [Bool.or_assoc]
    congr 1
    exact tokLen_or_split (goByteLen cfg.Token)

theorem ns_err_numeric (k : KConsts) (cfg : Conf) (r : ValidationResult) :
    hasFieldErr (validateNumericRanges k cfg r) .nsField =
      hasFieldErr r .nsField := by
  unfold validateNumericRanges
  rw [hasFieldErr_addErrorIf, hasFieldErr_addErrorIf, hasFieldErr_addErrorIf]
  have e1 : (FieldName.weightField == FieldName.nsField) = false := rfl
  have e2 : (FieldName.ttlField == FieldName.nsField) = false := rfl
  have e3 : (FieldName.maxRetryTimesField == FieldName.nsField) = false := rfl
  simp [e1, e2, e3]

theorem token_err_numeric (k : KConsts) (cfg : Conf) (r : ValidationResult) :
    hasFieldErr (validateNumericRanges k cfg r) .tokenField =
      hasFieldErr r .tokenField := by
  unfold validateNumericRanges
  rw [hasFieldErr_addErrorIf, hasFieldErr_addErrorIf, hasFieldErr_addErrorIf]
  have e1 : (FieldName.weightField == FieldName.tokenField) = false := rfl
  have e2 : (FieldName.ttlField == FieldName.tokenField) = false := rfl
  have e3 : (FieldName.maxRetryTimesField == FieldName.tokenField) = false := rfl
  simp [e1, e2, e3]

theorem ns_err_time (k : KConsts) (cfg : Conf) (r : ValidationResult) :
    hasFieldErr (validateTimeConfigs k cfg r) .nsField =
      hasFieldErr r .nsField := by
  unfold validateTimeConfigs
  cases cfg.Timeout <;> simp [hasFieldErr_addErrorIf]

theorem token_err_time (k : KConsts) (cfg : Conf) (r : ValidationResult) :
    hasFieldErr (validateTimeConfigs k cfg r) .tokenField =
      hasFieldErr r .tokenField := by
  unfold validateTimeConfigs
  cases cfg.Timeout <;> simp [hasFieldErr_addErrorIf]

theorem ns_err_deps (cfg : Conf) (r : ValidationResult) :
    hasFieldErr (validateDependencies cfg r) .nsField =
      hasFieldErr r .nsField := by
  unfold validateDependencies
  cases cfg.Timeout <;> simp [hasFieldErr_addErrorIf]

theorem token_err_deps (cfg : Conf) (r : ValidationResult) :
    hasFieldErr (validateDependencies cfg r) .tokenField =
      hasFieldErr r .tokenField := by
  unfold validateDependencies
  cases cfg.Timeout <;> simp [hasFieldErr_addErrorIf]

theorem decide_complexity (cfg : Conf) (env : GoEnv) :
    decide (cfg.Token ≠ "" ∧ env complexityEnvKey = "1" ∧
      ¬(tokenHasLetter cfg.Token = true ∧ tokenHasDigit cfg.Token = true)) =
    ((cfg.Token != "") && (env complexityEnvKey == "1") &&
      !(tokenHasLetter cfg.Token && tokenHasDigit cfg.Token)) := by
  rw [Bool.eq_iff_iff]
  simp [and_assoc]

theorem ns_err_security (cfg : Conf) (env : GoEnv) (r : ValidationResult) :
    hasFieldErr (validateSecurityConfigs cfg env r) .nsField =
      (hasFieldErr r .nsField || securityNsErrCond cfg env) := by
  have hft : (FieldName.tokenField == FieldName.nsField) = false := rfl
  simp only [validateSecurityConfigs, securityNsErrCond]
  split_ifs with h1 h2
  · rw [hasFieldErr_addErrorIf]
    simp [hft, h1]
  · rw [hasFieldErr_addErrorIf]
    rcases h2 with h2 | h2 <;> simp [hft, h2]
  · push_neg at h2
    have hb1 : (env disableSensitiveEnvKey == "1") = false := by simp [h2.1]
    have hb2 : (env disableSensitiveEnvKey == "true") = false := by simp [h2.2]
    have hne : (cfg.Namespace != "") = true := by simp [h1]
    cases hf : List.find?
        (fun w => (w != "") && goContains (goToLower cfg.Namespace) w)
        (activeSensitiveWords env) with
    | none =>
      rw [hasFieldErr_addErrorIf]
      simp [hft, hne, hb1, hb2]
    | some w =>
      rw [hasFieldErr_AddError, hasFieldErr_addErrorIf]
      simp [hft, hne, hb1, hb2]

theorem token_err_security (cfg : Conf) (env : GoEnv) (r : ValidationResult) :
    hasFieldErr (validateSecurityConfigs cfg env r) .tokenField =
      (hasFieldErr r .tokenField || securityTokenErrCond cfg env) := by
  have hff : (FieldName.tokenField == FieldName.tokenField) = true := rfl
  have hnt : (FieldName.nsField == FieldName.tokenField) = false := rfl
  simp only [validateSecurityConfigs, securityTokenErrCond]
  split_ifs with h1 h2
  · rw [hasFieldErr_addErrorIf, Bool.eq_iff_iff]
    simp [hff] <;> tauto
  · rw [hasFieldErr_addErrorIf, Bool.eq_iff_iff]
    simp [hff] <;> tauto
  · cases hf : List.find?
        (fun w => (w != "") && goContains (goToLower cfg.Namespace) w)
        (activeSensitiveWords env) with
    | none =>
      rw [hasFieldErr_addErrorIf, Bool.eq_iff_iff]
      simp [hff] <;> tauto
    | some w =>
      rw [hasFieldErr_AddError, hasFieldErr_addErrorIf, Bool.eq_iff_iff]
      simp [hff, hnt] <;> tauto

theorem ns_err_Validate (k : KConsts) (cfg : Conf) (env : GoEnv) :
    hasFieldErr (Validate k (some cfg) env) .nsField =
      ((!specNamespaceOk cfg.Namespace) || securityNsErrCond cfg env) := by
  unfold Validate validateEnumValues validateNetworkConfigs
    validatePerformanceConfigs
  rw [ns_err_security, ns_err_deps, ns_err_time, ns_err_numeric,
    ns_err_basicFields]
  simp [hasFieldErr, NewValidationResult]

theorem token_err_Validate (k : KConsts) (cfg : Conf) (env : GoEnv) :
    hasFieldErr (Validate k (some cfg) env) .tokenField =
      ((!specTokenOk cfg.Token) || securityTokenErrCond cfg env) := by
  unfold Validate validateEnumValues validateNetworkConfigs
    validatePerformanceConfigs
  rw [token_err_security, token_err_deps, token_err_time, token_err_numeric,
    token_err_basicFields]
  simp [hasFieldErr, NewValidationResult]

theorem redacted_AddError {r : ValidationResult} {f : FieldName} {m : MsgName}
    {v : GoValue} (hv : f = FieldName.tokenField → v = GoValue.strV "[REDACTED]")
    (hr : ∀ e ∈ r.Errors, TokenRedacted e) :
    ∀ e ∈ (r.AddError f m v).Errors, TokenRedacted e := by
  intro e he
  simp only [ValidationResult.AddError, List.mem_append,
    List.mem_singleton] at he
  rcases he with he | he
  · exact hr e he
  · subst he
    intro hf
    exact hv hf

theorem redacted_addErrorIf {c : Prop} [Decidable c] {f : FieldName}
    {m : MsgName} {v : GoValue} {r : ValidationResult}
    (hv : f = FieldName.tokenField → v = GoValue.strV "[REDACTED]")
    (hr : ∀ e ∈ r.Errors, TokenRedacted e) :
    ∀ e ∈ (addErrorIf c f m v r).Errors, TokenRedacted e := by
  unfold addErrorIf
  split
  · exact redacted_AddError hv hr
  · exact hr

theorem redacted_basicFields (cfg : Conf) (r : ValidationResult)
    (hr : ∀ e ∈ r.Errors, TokenRedacted e) :
    ∀ e ∈ (validateBasicFields cfg r).Errors, TokenRedacted e := by
  simp only [validateBasicFields]
  apply redacted_addErrorIf (fun _ => rfl)
  apply redacted_addErrorIf (fun _ => rfl)
  split_ifs <;>
    first
      | exact redacted_AddError (fun h => absurd h (by decide)) hr
      | exact hr

theorem redacted_numeric (k : KConsts) (cfg : Conf) (r : ValidationResult)
    (hr : ∀ e ∈ r.Errors, TokenRedacted e) :
    ∀ e ∈ (validateNumericRanges k cfg r).Errors, TokenRedacted e := by
  simp only [validateNumericRanges]
  apply redacted_addErrorIf (fun h => absurd h (by decide))
  apply redacted_addErrorIf (fun h => absurd h (by decide))
  exact redacted_addErrorIf (fun h => absurd h (by decide)) hr

theorem redacted_time (k : KConsts) (cfg : Conf) (r : ValidationResult)
    (hr : ∀ e ∈ r.Errors, TokenRedacted e) :
    ∀ e ∈ (validateTimeConfigs k cfg r).Errors, TokenRedacted e := by
  simp only [validateTimeConfigs]
  cases cfg.Timeout with
  | none => exact hr
  | some t => exact redacted_addErrorIf (fun h => absurd h (by decide)) hr

theorem redacted_deps (cfg : Conf) (r : ValidationResult)
    (hr : ∀ e ∈ r.Errors, TokenRedacted e) :
    ∀ e ∈ (validateDependencies cfg r).Errors, TokenRedacted e := by
  simp only [validateDependencies]
  cases cfg.Timeout with
  | none => exact hr
  | some t => exact redacted_addErrorIf (fun h => absurd h (by decide)) hr

theorem redacted_security (cfg : Conf) (env : GoEnv) (r : ValidationResult)
    (hr : ∀ e ∈ r.Errors, TokenRedacted e) :
    ∀ e ∈ (validateSecurityConfigs cfg env r).Errors, TokenRedacted e := by
  simp only [validateSecurityConfigs]
  split_ifs
  · exact redacted_addErrorIf (fun _ => rfl) hr
  · exact redacted_addErrorIf (fun _ => rfl) hr
  · cases List.find?
        (fun w => (w != "") && goContains (goToLower cfg.Namespace) w)
        (activeSensitiveWords env) with
    | none => exact redacted_addErrorIf (fun _ => rfl) hr
    | some w =>
      exact redacted_AddError (fun h => absurd h (by decide))
        (redacted_addErrorIf (fun _ => rfl) hr)

theorem redacted_Validate (k : KConsts) (config : Option Conf) (env : GoEnv) :
    ∀ e ∈ (Validate k config env).Errors, TokenRedacted e := by
  cases config with
  | none =>
    simp only [Validate]
    apply redacted_AddError (fun h => absurd h (by decide))
    intro e he
    simp [NewValidationResult] at he
  | some cfg =>
    simp only [Validate, validateEnumValues, validateNetworkConfigs,
      validatePerformanceConfigs]
    apply redacted_security
    apply redacted_deps
    apply redacted_time
    apply redacted_numeric
    apply redacted_basicFields
    intro e he
    simp [NewValidationResult] at he

/-- Claim C6 counterexample: the namespace "admin" is non-empty, at most
64 characters, and matches `[a-zA-Z0-9_-]+`, yet under the default
environment Validate records a namespace error for it (the sensitive-word
scan of validateSecurityConfigs), so the claimed three conditions are not
sufficient for acceptance. -/
theorem c6_counterexample :
    specNamespaceOk "admin" = true ∧
    cfgAdmin.Namespace = "admin" ∧
    hasFieldErr (Validate k0 (some cfgAdmin) emptyGoEnv) .nsField = true := by
  refine ⟨by decide, rfl, ?_⟩
  rw [ns_err_Validate]
  decide

/-- Claim C6 amended: with the namespace sensitive-word check at its
defaults (not disabled, word list not overridden), Validate records no
namespace error exactly when the namespace is non-empty, at most 64
characters, matches `[a-zA-Z0-9_-]+`, and additionally its lower-cased
form contains none of the default sensitive words admin, root, system,
internal. -/
theorem c6_namespace_acceptance (k : KConsts) (cfg : Conf) (env : GoEnv)
    (h1 : env disableSensitiveEnvKey ≠ "1")
    (h2 : env disableSensitiveEnvKey ≠ "true")
    (h3 : env sensitiveWordsEnvKey = "") :
    hasFieldErr (Validate k (some cfg) env) .nsField = false ↔
      (specNamespaceOk cfg.Namespace = true ∧
       defaultNamespaceSensitiveWords.find?
         (fun w => (w != "") && goContains (goToLower cfg.Namespace) w)
         = none) := by
  rw [ns_err_Validate]
  unfold securityNsErrCond activeSensitiveWords
  rw [if_neg (by simp [h3])]
  have hb1 : (env disableSensitiveEnvKey == "1") = false := by simp [h1]
  have hb2 : (env disableSensitiveEnvKey == "true") = false := by simp [h2]
  rw [hb1, hb2]
  cases hA : specNamespaceOk cfg.Namespace with
  | false => simp
  | true =>
    have hne : (cfg.Namespace != "") = true := by
      have hA2 := hA
      simp only [specNamespaceOk, Bool.and_eq_true] at hA2
      exact hA2.1.1
    cases hF : defaultNamespaceSensitiveWords.find?
        (fun w => (w != "") && goContains (goToLower cfg.Namespace) w) <;>
      simp [hne, hF]

/-- Witness for C6 amended: the sample configuration's namespace
"test-namespace" is accepted under the default environment. -/
theorem c6_namespace_acceptance_witness :
    emptyGoEnv disableSensitiveEnvKey ≠ "1" ∧
    emptyGoEnv disableSensitiveEnvKey ≠ "true" ∧
    emptyGoEnv sensitiveWordsEnvKey = "" ∧
    hasFieldErr (Validate k0 (some cfg0) emptyGoEnv) .nsField = false := by
  refine ⟨by decide, by decide, rfl, ?_⟩
  exact (c6_namespace_acceptance k0 cfg0 emptyGoEnv (by decide) (by decide)
    rfl).mpr (by decide)

/-- Claim C7: with the optional token-complexity check off (its env
variable not "1"), Validate records no token error exactly when the token
is empty or its length is between 8 and 1024; and every token-field
validation error records "[REDACTED]" as its value, never the token. -/
theorem c7_token_validation (k : KConsts) (cfg : Conf) (env : GoEnv) :
    (env complexityEnvKey ≠ "1" →
      (hasFieldErr (Validate k (some cfg) env) .tokenField = false ↔
        specTokenOk cfg.Token = true)) ∧
    (∀ e ∈ (Validate k (some cfg) env).Errors,
      e.Field = FieldName.tokenField → e.Value = GoValue.strV "[REDACTED]") := by
  constructor
  · intro h
    rw [token_err_Validate]
    have hc : securityTokenErrCond cfg env = false := by
      unfold securityTokenErrCond
      have : (env complexityEnvKey == "1") = false := by simp [h]
      simp [this]
    rw [hc]
    cases hs : specTokenOk cfg.Token <;> simp [hs]
  · exact redacted_Validate k (some cfg) env

/-- Witness for C7: under the default environment, an 8-character token
is accepted. -/
theorem c7_token_validation_witness :
    emptyGoEnv complexityEnvKey ≠ "1" ∧
    hasFieldErr (Validate k0 (some { cfg0 with Token := "abcd1234" })
      emptyGoEnv) .tokenField = false :=
  ⟨by decide,
   ((c7_token_validation k0 { cfg0 with Token := "abcd1234" } emptyGoEnv).1
      (by decide)).mpr (by decide)⟩

theorem invHolds_AddError (r : ValidationResult) (f : FieldName) (m : MsgName)
    (v : GoValue) : InvHolds (r.AddError f m v) := by
  simp [InvHolds, ValidationResult.AddError]

theorem invHolds_addErrorIf {c : Prop} [Decidable c] {f : FieldName}
    {m : MsgName} {v : GoValue} {r : ValidationResult} (hr : InvHolds r) :
    InvHolds (addErrorIf c f m v r) := by
  unfold addErrorIf
  split
  · exact invHolds_AddError r f m v
  · exact hr

theorem invHolds_basicFields (cfg : Conf) (r : ValidationResult)
    (hr : InvHolds r) : InvHolds (validateBasicFields cfg r) := by
  simp only [validateBasicFields]
  apply invHolds_addErrorIf
  apply invHolds_addErrorIf
  split_ifs <;> first | apply invHolds_AddError | exact hr

theorem invHolds_numeric (k : KConsts) (cfg : Conf) (r : ValidationResult)
    (hr : InvHolds r) : InvHolds (validateNumericRanges k cfg r) := by
  simp only [validateNumericRanges]
  apply invHolds_addErrorIf
  apply invHolds_addErrorIf
  exact invHolds_addErrorIf hr

theorem invHolds_time (k : KConsts) (cfg : Conf) (r : ValidationResult)
    (hr : InvHolds r) : InvHolds (validateTimeConfigs k cfg r) := by
  simp only [validateTimeConfigs]
  cases cfg.Timeout with
  | none => exact hr
  | some t => exact invHolds_addErrorIf hr

theorem invHolds_deps (cfg : Conf) (r : ValidationResult)
    (hr : InvHolds r) : InvHolds (validateDependencies cfg r) := by
  simp only [validateDependencies]
  cases cfg.Timeout with
  | none => exact hr
  | some t => exact invHolds_addErrorIf hr

theorem invHolds_security (cfg : Conf) (env : GoEnv) (r : ValidationResult)
    (hr : InvHolds r) : InvHolds (validateSecurityConfigs cfg env r) := by
  simp only [validateSecurityConfigs]
  split_ifs
  · exact invHolds_addErrorIf hr
  · exact invHolds_addErrorIf hr
  · cases List.find?
        (fun w => (w != "") && goContains (goToLower cfg.Namespace) w)
        (activeSensitiveWords env) with
    | none => exact invHolds_addErrorIf hr
    | some w => apply invHolds_AddError

theorem invHolds_Validate (k : KConsts) (config : Option Conf) (env : GoEnv) :
    InvHolds (Validate k config env) := by
  cases config with
  | none =>
    simp only [Validate]
    apply invHolds_AddError
  | some cfg =>
    simp only [Validate, validateEnumValues, validateNetworkConfigs,
      validatePerformanceConfigs]
    apply invHolds_security
    apply invHolds_deps
    apply invHolds_time
    apply invHolds_numeric
    apply invHolds_basicFields
    simp [InvHolds, NewValidationResult]

/-- Claim C10: the ValidationResult invariant — NewValidationResult
establishes IsValid with an empty error list, AddError sets IsValid false
while appending (and preserves the invariant), and consequently
ValidateConfig returns a non-nil error exactly when Validate recorded at
least one ValidationError. -/
theorem c10_validation_result_invariant (k : KConsts) (config : Option Conf)
    (env : GoEnv) (r : ValidationResult) (f : FieldName) (m : MsgName)
    (v : GoValue) :
    (NewValidationResult.IsValid = true ∧ NewValidationResult.Errors = []) ∧
    ((r.AddError f m v).IsValid = false ∧ (r.AddError f m v).Errors ≠ []) ∧
    (InvHolds r → InvHolds (r.AddError f m v)) ∧
    (ValidateConfig k config env ≠ none ↔
      (Validate k config env).Errors ≠ []) := by
  refine ⟨⟨rfl, rfl⟩,
    ⟨rfl, by simp [ValidationResult.AddError]⟩,
    fun _ => invHolds_AddError r f m v, ?_⟩
  have hinv := invHolds_Validate k config env
  unfold ValidateConfig
  cases hV : (Validate k config env).IsValid with
  | false =>
    have hne : (Validate k config env).Errors ≠ [] := by
      intro hE
      rw [hinv.mpr hE] at hV
      exact Bool.true_eq_false.mp hV
    simp [hV, hne]
  | true =>
    have hE := hinv.mp hV
    simp [hV, hE]

/-- Witness for C10: the invariant implication and the
ValidateConfig/Errors equivalence at concrete inputs. -/
theorem c10_validation_result_invariant_witness :
    InvHolds (NewValidationResult.AddError FieldName.nsField MsgName.nsEmpty
      GoValue.nilV) ∧
    (ValidateConfig k0 (some cfgAdmin) emptyGoEnv ≠ none ↔
      (Validate k0 (some cfgAdmin) emptyGoEnv).Errors ≠ []) :=
  ⟨(c10_validation_result_invariant k0 (some cfgAdmin) emptyGoEnv
      NewValidationResult FieldName.nsField MsgName.nsEmpty GoValue.nilV).2.2.1
      (by simp [InvHolds, NewValidationResult]),
   (c10_validation_result_invariant k0 (some cfgAdmin) emptyGoEnv
      NewValidationResult FieldName.nsField MsgName.nsEmpty
      GoValue.nilV).2.2.2⟩

end LynxPolaris
